import Mathlib

/-!
# Verification of the rbd-to-rbd backup worker (src/main.py)

Shallow embedding of the replication state machine, transfer pipeline,
checkpoint lifecycle, scrubbing gate and cleanup finalizer of
`src/main.py`, together with proofs settling the frozen claims.

Modelling conventions:

* The two Ceph clusters (the remote source cluster reached through the
  ssh prefix, and the local destination cluster) are explicit values.
  A `command_inject` string selects the cluster exactly as in the
  source: the empty string targets the local cluster, a non-empty ssh
  prefix targets the remote one.
* Every executed control-plane command is recorded in a structured
  trace (`Cmd`); each constructor corresponds to one `exec_raw` /
  `subprocess.call` site of the source.  The raw shell text matters
  only for the transfer pipeline, which is kept as the literal string
  the source builds and interpreted by a small POSIX-shell model.
* Python `raise RuntimeError(msg)` becomes `Except.error msg`; the
  state at the moment of the raise is always returned alongside.
* Inventory queries read the cluster value and never change it, so the
  world is static during a run, matching the single-threaded source.
* Control-plane commands other than the transfer pipeline are modelled
  as succeeding; only the pipeline consults the stage-exit-code
  environment, which is where the claims inject failures.
-/

set_option autoImplicit false
set_option maxRecDepth 100000

namespace RbdBackup

/-- Python `s.startswith(p, 0, len(p))` (src lines 126 and 135); with
start 0 and end `len(p)` this is exactly "p is a prefix of s". -/
def strStartsWith (s p : String) : Bool :=
  p.data.isPrefixOf s.data

/-- An rbd image: name, its snapshot names in listing order, and its
byte size (the `size` field of `rbd info`). -/
structure RbdImage where
  name : String
  snaps : List String
  size : Nat
  deriving DecidableEq, Repr

/-- One Ceph cluster: pools of images plus the osd scrub flags and the
health/scrub-activity observables read by the wait loops.
`noscrubFlag`/`nodeepScrubFlag` are the `noscrub` / `nodeep-scrub` osd
flags: a flag that is SET (true) pauses that kind of scrubbing. -/
structure CephCluster where
  pools : List (String × List RbdImage)
  noscrubFlag : Bool
  nodeepScrubFlag : Bool
  healthErr : Bool
  scrubActive : Bool
  deriving DecidableEq, Repr

/-- Structured trace of executed control-plane commands; each
constructor is one command-execution site of src/main.py. -/
inductive Cmd where
  /-- `rbd -p <pool> ls --format json` (line 111) -/
  | poolLs (inject pool : String)
  /-- `rbd -p <pool> snap ls --format json <image>` (line 119) -/
  | snapLs (inject pool image : String)
  /-- `rbd -p <pool> snap create <image>@<name>` (lines 168/170) -/
  | snapCreate (inject pool image name : String)
  /-- `rbd -p <pool> snap rm <image>@<snapshot>` (line 183) -/
  | snapRm (inject pool image snapshot : String)
  /-- `ceph osd <action> <flag>` (lines 194-195) -/
  | osdFlag (inject action flag : String)
  /-- `ceph health detail` (line 200) -/
  | healthQuery (inject : String)
  /-- `ceph status` (line 208) -/
  | statusQuery (inject : String)
  /-- `rbd info <pool/image> --format json` (lines 187/242) -/
  | infoQuery (inject path : String)
  /-- the full shell pipeline handed to `exec_raw` (lines 244/257) -/
  | pipeline (cmd : String)
  deriving DecidableEq, Repr

/-- Process state threaded through the run: the two clusters, the
command trace, and the supply of random snapshot-name suffixes. -/
structure ExecState where
  remoteC : CephCluster
  localC : CephCluster
  trace : List Cmd
  rng : List String
  deriving DecidableEq, Repr

/-- Selects the cluster a `command_inject` prefix addresses: the empty
string is the local host, anything else is the ssh-prefixed remote. -/
def clusterOf (s : ExecState) (inject : String) : CephCluster :=
  if inject = "" then s.localC else s.remoteC

/-- Updates the cluster addressed by `inject`. -/
def updateClusterAt (s : ExecState) (inject : String)
    (f : CephCluster → CephCluster) : ExecState :=
  if inject = "" then { s with localC := f s.localC }
  else { s with remoteC := f s.remoteC }

/-- Appends one executed command to the trace. -/
def pushTrace (s : ExecState) (c : Cmd) : ExecState :=
  { s with trace := s.trace ++ [c] }

@[simp] theorem pushTrace_localC (s : ExecState) (c : Cmd) :
    (pushTrace s c).localC = s.localC := rfl

@[simp] theorem pushTrace_remoteC (s : ExecState) (c : Cmd) :
    (pushTrace s c).remoteC = s.remoteC := rfl

@[simp] theorem pushTrace_rng (s : ExecState) (c : Cmd) :
    (pushTrace s c).rng = s.rng := rfl

@[simp] theorem pushTrace_trace (s : ExecState) (c : Cmd) :
    (pushTrace s c).trace = s.trace ++ [c] := rfl

@[simp] theorem clusterOf_pushTrace (s : ExecState) (c : Cmd) (i : String) :
    clusterOf (pushTrace s c) i = clusterOf s i := by
  simp [clusterOf, pushTrace]

@[simp] theorem clusterOf_empty (s : ExecState) : clusterOf s "" = s.localC := by
  simp [clusterOf]

/-- The image names of a pool, i.e. the JSON list printed by
`rbd -p <pool> ls --format json`. -/
def imageNames (c : CephCluster) (pool : String) : List String :=
  ((List.lookup pool c.pools).getD []).map RbdImage.name

/-- Looks an image up inside a pool of a cluster. -/
def lookupImage (c : CephCluster) (pool image : String) : Option RbdImage :=
  ((List.lookup pool c.pools).getD []).find? (fun i => i.name == image)

/-- `get_ceph_rbd_images` (src lines 110-111). -/
def get_ceph_rbd_images (pool inject : String) (s : ExecState) :
    List String × ExecState :=
  (imageNames (clusterOf s inject) pool, pushTrace s (Cmd.poolLs inject pool))

/-- `ceph_rbd_image_exists` (src lines 114-115). -/
def ceph_rbd_image_exists (pool image inject : String) (s : ExecState) :
    Bool × ExecState :=
  let (images, s1) := get_ceph_rbd_images pool inject s
  (images.contains image, s1)

/-- `get_ceph_snapshots` (src lines 118-119): returns the snapshot
names of the image; `rbd snap ls` on a missing image exits non-zero,
which `exec_raw` turns into a RuntimeError. -/
def get_ceph_snapshots (pool image inject : String) (s : ExecState) :
    Except String (List String) × ExecState :=
  let s1 := pushTrace s (Cmd.snapLs inject pool image)
  match lookupImage (clusterOf s inject) pool image with
  | some img => (Except.ok img.snaps, s1)
  | none => (Except.error "command failed with code: 2", s1)

/-- `count_previous_ceph_rbd_snapsots` (src lines 122-129, keeping the
source's spelling): counts the snapshots whose name starts with the
configured prefix ( `snapPre` embeds SNAPSHOT_PREFIX). -/
def count_previous_ceph_rbd_snapsots ( snapPre pool image inject : String)
    (s : ExecState) : Except String Nat × ExecState :=
  match get_ceph_snapshots pool image inject s with
  | (Except.ok snaps, s1) =>
      (Except.ok (snaps.filter (fun n => strStartsWith n snapPre)).length, s1)
  | (Except.error e, s1) => (Except.error e, s1)

/-- `get_previous_ceph_rbd_snapshot_name` (src lines 132-137): returns
the first snapshot whose name starts with the configured prefix,
re-querying the snapshot listing. -/
def get_previous_ceph_rbd_snapshot_name ( snapPre pool image inject : String)
    (s : ExecState) : Except String String × ExecState :=
  match get_ceph_snapshots pool image inject s with
  | (Except.ok snaps, s1) =>
      match snaps.find? (fun n => strStartsWith n snapPre) with
      | some n => (Except.ok n, s1)
      | none => (Except.error "cannot determine ceph snapshot name, aborting!", s1)
  | (Except.error e, s1) => (Except.error e, s1)

/-- BACKUPMODE_INITIAL (src line 30). -/
def BACKUPMODE_INITIAL : Nat := 1

/-- BACKUPMODE_INCREMENTAL (src line 31). -/
def BACKUPMODE_INCREMENTAL : Nat := 2

/-- A pool/image pair, the parsed form of a `pool/image` path. -/
structure VolRef where
  pool : String
  image : String
  deriving DecidableEq, Repr

/-- `ceph_rbd_object_to_path` (src lines 91-92). -/
def ceph_rbd_object_to_path (o : VolRef) : String :=
  o.pool ++ "/" ++ o.image

/-- The result dictionary of `get_backup_mode`. -/
structure BackupModeResult where
  mode : Nat
  base_snapshot : String
  deriving DecidableEq, Repr

/-- `get_backup_mode` (src lines 140-160): the classification core.
Source existence is queried at the source site, destination existence
at the local site (the source passes no command_inject on line 145),
then the owned-snapshot count decides the branch.  Note that the
INCREMENTAL branch re-queries the snapshot listing through
`get_previous_ceph_rbd_snapshot_name`. -/
def get_backup_mode ( snapPre : String) (from_source to_destination : VolRef)
    (inject : String) (s : ExecState) :
    Except String BackupModeResult × ExecState :=
  let (source_exists, s1) :=
    ceph_rbd_image_exists from_source.pool from_source.image inject s
  if !source_exists then
    (Except.error ("invalid arguments, source image does not exist "
        ++ ceph_rbd_object_to_path from_source), s1)
  else
    let (destination_exists, s2) :=
      ceph_rbd_image_exists to_destination.pool to_destination.image "" s1
    match count_previous_ceph_rbd_snapsots snapPre from_source.pool
        from_source.image inject s2 with
    | (Except.error e, s3) => (Except.error e, s3)
    | (Except.ok source_previous_snapshot_count, s3) =>
      if source_previous_snapshot_count > 1 then
        (Except.error ("inconsistent state, more than one snapshot for image "
            ++ ceph_rbd_object_to_path from_source), s3)
      else if source_previous_snapshot_count == 1 && !destination_exists then
        (Except.error ("inconsistent state, source snapshot found but destination does not exist "
            ++ ceph_rbd_object_to_path to_destination), s3)
      else if source_previous_snapshot_count == 0 && destination_exists then
        (Except.error "inconsistent state, source snapshot not found but destination does exist", s3)
      else if source_previous_snapshot_count == 0 && !destination_exists then
        (Except.ok { mode := BACKUPMODE_INITIAL, base_snapshot := "" }, s3)
      else
        match get_previous_ceph_rbd_snapshot_name snapPre from_source.pool
            from_source.image inject s3 with
        | (Except.ok n, s4) =>
            (Except.ok { mode := BACKUPMODE_INCREMENTAL, base_snapshot := n }, s4)
        | (Except.error e, s4) => (Except.error e, s4)

deriving instance DecidableEq for Except

def testRemote : CephCluster :=
  { pools := [("rbd", [{ name := "vm", snaps := ["backup_snapshot_aaaa"], size := 42 }])],
    noscrubFlag := false, nodeepScrubFlag := false,
    healthErr := false, scrubActive := false }

def testLocal : CephCluster :=
  { pools := [("rbd_backup", [{ name := "vm", snaps := [], size := 42 }])],
    noscrubFlag := false, nodeepScrubFlag := false,
    healthErr := false, scrubActive := false }

def testState : ExecState :=
  { remoteC := testRemote, localC := testLocal, trace := [], rng := ["1111", "2222"] }

/-- If `find?` by name succeeds on a pool's image list, the image name
is a member of the pool's name listing. -/
theorem find_name_imp_mem (image : String) (img : RbdImage)
    (l : List RbdImage) (h : l.find? (fun i => i.name == image) = some img) :
    image ∈ l.map RbdImage.name := by
  have h1 := List.find?_some h
  have h2 := List.mem_of_find?_eq_some h
  have h3 : img.name = image := by simpa using h1
  exact h3 ▸ List.mem_map_of_mem RbdImage.name h2

/-- If filtering a list yields exactly one element, `find?` with the
same predicate returns that element. -/
theorem filter_singleton_imp_find {α : Type} (p : α → Bool) :
    ∀ (l : List α) (a : α), l.filter p = [a] → l.find? p = some a := by
  intro l
  induction l with
  | nil => intro a h; simp at h
  | cons b t ih =>
    intro a h
    simp only [List.find?]
    cases hb : p b with
    | true =>
      rw [List.filter_cons_of_pos hb] at h
      injection h with h1 h2
      subst h1
      simp
    | false =>
      rw [List.filter_cons_of_neg (by simp [hb])] at h
      simp only []
      exact ih a h

/-- A remote source cluster whose image carries zero owned snapshots. -/
def testRemoteNoSnap : CephCluster :=
  { pools := [("rbd", [{ name := "vm", snaps := [], size := 42 }])],
    noscrubFlag := false, nodeepScrubFlag := false,
    healthErr := false, scrubActive := false }

/-- State for the zero-checkpoint scenarios: source exists remotely
with no owned snapshot, destination image exists locally. -/
def stateZeroSnapBothExist : ExecState :=
  { remoteC := testRemoteNoSnap, localC := testLocal, trace := [],
    rng := ["1111", "2222"] }

/-- **C1 counterexample**: with zero owned checkpoints and BOTH volumes
existing, `get_backup_mode` does not return FULL; it raises the
"source snapshot not found but destination does exist" error
(src lines 154-155). -/
theorem c1_zero_snaps_both_exist_raises :
    (get_backup_mode "backup_snapshot_" ⟨"rbd", "vm"⟩ ⟨"rbd_backup", "vm"⟩
        "ssh root@src " stateZeroSnapBothExist).1 =
      Except.error
        "inconsistent state, source snapshot not found but destination does exist" := by
  decide

/-- **C1** (amended): for every source volume carrying zero tool-owned
checkpoints, where the source volume exists at its site and the
destination volume does NOT exist locally, `get_backup_mode` returns
the FULL (BACKUPMODE_INITIAL) replication mode with an empty base. -/
theorem c1_zero_snaps_no_destination_full
    ( snapPre : String) (src dst : VolRef) (inject : String) (s : ExecState)
    (img : RbdImage)
    (hsrc : lookupImage (clusterOf s inject) src.pool src.image = some img)
    (hzero : img.snaps.filter (fun n => strStartsWith n snapPre) = [])
    (hdst : dst.image ∉ imageNames s.localC dst.pool) :
    (get_backup_mode snapPre src dst inject s).1 =
      Except.ok { mode := BACKUPMODE_INITIAL, base_snapshot := "" } := by
  have hex : src.image ∈ imageNames (clusterOf s inject) src.pool :=
    find_name_imp_mem _ _ _ hsrc
  simp [get_backup_mode, ceph_rbd_image_exists, get_ceph_rbd_images,
    count_previous_ceph_rbd_snapsots, get_ceph_snapshots,
    hsrc, hex, hdst, hzero]

/-- State for the FULL scenario: source exists remotely with no owned
snapshot, destination image absent locally. -/
def stateZeroSnapNoDest : ExecState :=
  { remoteC := testRemoteNoSnap,
    localC := { pools := [("rbd_backup", [])], noscrubFlag := false,
                nodeepScrubFlag := false, healthErr := false,
                scrubActive := false },
    trace := [], rng := ["1111", "2222"] }

/-- Witness for the amended C1 theorem at a concrete state. -/
theorem c1_zero_snaps_no_destination_full_witness :
    (get_backup_mode "backup_snapshot_" ⟨"rbd", "vm"⟩ ⟨"rbd_backup", "vm"⟩
        "ssh root@src " stateZeroSnapNoDest).1 =
      Except.ok { mode := BACKUPMODE_INITIAL, base_snapshot := "" } :=
  c1_zero_snaps_no_destination_full "backup_snapshot_" ⟨"rbd", "vm"⟩
    ⟨"rbd_backup", "vm"⟩ "ssh root@src " stateZeroSnapNoDest
    { name := "vm", snaps := [], size := 42 }
    (by decide) (by decide) (by decide)

/-- **C5**: for every source volume carrying exactly one tool-owned
checkpoint, where source and destination volumes both exist,
`get_backup_mode` returns INCREMENTAL with that checkpoint as base. -/
theorem c5_one_snap_incremental
    ( snapPre : String) (src dst : VolRef) (inject : String) (s : ExecState)
    (img : RbdImage) (base : String)
    (hsrc : lookupImage (clusterOf s inject) src.pool src.image = some img)
    (hone : img.snaps.filter (fun n => strStartsWith n snapPre) = [base])
    (hdst : dst.image ∈ imageNames s.localC dst.pool) :
    (get_backup_mode snapPre src dst inject s).1 =
      Except.ok { mode := BACKUPMODE_INCREMENTAL, base_snapshot := base } := by
  have hex : src.image ∈ imageNames (clusterOf s inject) src.pool :=
    find_name_imp_mem _ _ _ hsrc
  have hfind : img.snaps.find? (fun n => strStartsWith n snapPre) = some base :=
    filter_singleton_imp_find _ _ _ hone
  simp [get_backup_mode, ceph_rbd_image_exists, get_ceph_rbd_images,
    count_previous_ceph_rbd_snapsots, get_ceph_snapshots,
    get_previous_ceph_rbd_snapshot_name,
    hsrc, hex, hdst, hone, hfind]

/-- Witness for C5 at a concrete state. -/
theorem c5_one_snap_incremental_witness :
    (get_backup_mode "backup_snapshot_" ⟨"rbd", "vm"⟩ ⟨"rbd_backup", "vm"⟩
        "ssh root@src " testState).1 =
      Except.ok { mode := BACKUPMODE_INCREMENTAL,
                  base_snapshot := "backup_snapshot_aaaa" } :=
  c5_one_snap_incremental "backup_snapshot_" ⟨"rbd", "vm"⟩
    ⟨"rbd_backup", "vm"⟩ "ssh root@src " testState
    { name := "vm", snaps := ["backup_snapshot_aaaa"], size := 42 }
    "backup_snapshot_aaaa" (by decide) (by decide) (by decide)

/-- **C6**: for every source volume carrying two or more tool-owned
checkpoints, `get_backup_mode` fails with the more-than-one-snapshot
precondition error, and the run state is unchanged except for the
three read-only inventory queries appended to the trace: neither
cluster is mutated (no checkpoint created or removed, no maintenance
flag toggled). -/
theorem c6_many_snaps_error_no_mutation
    ( snapPre : String) (src dst : VolRef) (inject : String) (s : ExecState)
    (img : RbdImage)
    (hsrc : lookupImage (clusterOf s inject) src.pool src.image = some img)
    (hmany : 2 ≤ (img.snaps.filter (fun n => strStartsWith n snapPre)).length) :
    (get_backup_mode snapPre src dst inject s).1 =
      Except.error ("inconsistent state, more than one snapshot for image "
        ++ ceph_rbd_object_to_path src) ∧
    (get_backup_mode snapPre src dst inject s).2 =
      { s with trace := s.trace ++ [Cmd.poolLs inject src.pool,
          Cmd.poolLs "" dst.pool, Cmd.snapLs inject src.pool src.image] } := by
  have hex : src.image ∈ imageNames (clusterOf s inject) src.pool :=
    find_name_imp_mem _ _ _ hsrc
  have hgt : (img.snaps.filter (fun n => strStartsWith n snapPre)).length > 1 := by
    omega
  constructor
  · simp [get_backup_mode, ceph_rbd_image_exists, get_ceph_rbd_images,
      count_previous_ceph_rbd_snapsots, get_ceph_snapshots,
      hsrc, hex, hgt]
  · simp [get_backup_mode, ceph_rbd_image_exists, get_ceph_rbd_images,
      count_previous_ceph_rbd_snapsots, get_ceph_snapshots,
      hsrc, hex, hgt]
    simp [pushTrace]

/-- A remote source cluster whose image carries two owned snapshots. -/
def testRemoteTwoSnaps : CephCluster :=
  { pools := [("rbd", [{ name := "vm", snaps := ["backup_snapshot_aaaa", "backup_snapshot_bbbb"], size := 42 }])],
    noscrubFlag := false, nodeepScrubFlag := false,
    healthErr := false, scrubActive := false }

/-- State for the corruption scenario: two owned snapshots. -/
def stateTwoSnaps : ExecState :=
  { remoteC := testRemoteTwoSnaps, localC := testLocal, trace := [],
    rng := ["1111", "2222"] }

/-- Witness for C6 at a concrete state. -/
theorem c6_many_snaps_error_no_mutation_witness :
    (get_backup_mode "backup_snapshot_" ⟨"rbd", "vm"⟩ ⟨"rbd_backup", "vm"⟩
        "ssh root@src " stateTwoSnaps).1 =
      Except.error ("inconsistent state, more than one snapshot for image "
        ++ ceph_rbd_object_to_path ⟨"rbd", "vm"⟩) ∧
    (get_backup_mode "backup_snapshot_" ⟨"rbd", "vm"⟩ ⟨"rbd_backup", "vm"⟩
        "ssh root@src " stateTwoSnaps).2 =
      { stateTwoSnaps with trace := stateTwoSnaps.trace ++
          [Cmd.poolLs "ssh root@src " "rbd", Cmd.poolLs "" "rbd_backup",
           Cmd.snapLs "ssh root@src " "rbd" "vm"] } :=
  c6_many_snaps_error_no_mutation "backup_snapshot_" ⟨"rbd", "vm"⟩
    ⟨"rbd_backup", "vm"⟩ "ssh root@src " stateTwoSnaps
    { name := "vm", snaps := ["backup_snapshot_aaaa", "backup_snapshot_bbbb"],
      size := 42 }
    (by decide) (by decide)

/-- **C8 counterexample**: during one incremental-mode classification
the checkpoint inventory (`rbd snap ls`) of the source image is
queried TWICE — once by the count step and once more by the base-name
fetch — so the classification does not issue its checkpoint query only
once per run. -/
theorem c8_snapls_queried_twice :
    ((get_backup_mode "backup_snapshot_" ⟨"rbd", "vm"⟩ ⟨"rbd_backup", "vm"⟩
        "ssh root@src " testState).2.trace.count
      (Cmd.snapLs "ssh root@src " "rbd" "vm")) = 2 := by
  decide

/-- **C8** (amended): classification issues each volume-existence query
once, but in the incremental case it reads the source checkpoint
listing twice: the exact trace of a successful incremental
classification is pool listing of the source, pool listing of the
destination, and two identical snapshot listings of the source image;
the base returned is the first owned entry of the (re-queried)
listing, which matches the counted listing only because the inventory
is not mutated in between. -/
theorem c8_incremental_trace
    ( snapPre : String) (src dst : VolRef) (inject : String) (s : ExecState)
    (img : RbdImage) (base : String)
    (hsrc : lookupImage (clusterOf s inject) src.pool src.image = some img)
    (hone : img.snaps.filter (fun n => strStartsWith n snapPre) = [base])
    (hdst : dst.image ∈ imageNames s.localC dst.pool) :
    (get_backup_mode snapPre src dst inject s).2.trace =
      s.trace ++ [Cmd.poolLs inject src.pool, Cmd.poolLs "" dst.pool,
        Cmd.snapLs inject src.pool src.image,
        Cmd.snapLs inject src.pool src.image] := by
  have hex : src.image ∈ imageNames (clusterOf s inject) src.pool :=
    find_name_imp_mem _ _ _ hsrc
  have hfind : img.snaps.find? (fun n => strStartsWith n snapPre) = some base :=
    filter_singleton_imp_find _ _ _ hone
  simp [get_backup_mode, ceph_rbd_image_exists, get_ceph_rbd_images,
    count_previous_ceph_rbd_snapsots, get_ceph_snapshots,
    get_previous_ceph_rbd_snapshot_name,
    hsrc, hex, hdst, hone, hfind]

/-- Witness for the amended C8 theorem at a concrete state. -/
theorem c8_incremental_trace_witness :
    (get_backup_mode "backup_snapshot_" ⟨"rbd", "vm"⟩ ⟨"rbd_backup", "vm"⟩
        "ssh root@src " testState).2.trace =
      testState.trace ++ [Cmd.poolLs "ssh root@src " "rbd",
        Cmd.poolLs "" "rbd_backup", Cmd.snapLs "ssh root@src " "rbd" "vm",
        Cmd.snapLs "ssh root@src " "rbd" "vm"] :=
  c8_incremental_trace "backup_snapshot_" ⟨"rbd", "vm"⟩
    ⟨"rbd_backup", "vm"⟩ "ssh root@src " testState
    { name := "vm", snaps := ["backup_snapshot_aaaa"], size := 42 }
    "backup_snapshot_aaaa" (by decide) (by decide) (by decide)

/-- Appends a snapshot name to an image inside a pool map (the effect
of `rbd snap create`). -/
def addSnap (pool image name : String) (c : CephCluster) : CephCluster :=
  { c with pools := c.pools.map (fun p =>
      if p.1 == pool then
        (p.1, p.2.map (fun i =>
          if i.name == image then { i with snaps := i.snaps ++ [name] } else i))
      else p) }

/-- Removes a snapshot name from an image inside a pool map (the
effect of `rbd snap rm`). -/
def delSnap (pool image name : String) (c : CephCluster) : CephCluster :=
  { c with pools := c.pools.map (fun p =>
      if p.1 == pool then
        (p.1, p.2.map (fun i =>
          if i.name == image then
            { i with snaps := i.snaps.filter (fun n => n != name) }
          else i))
      else p) }

/-- Appends an image to a pool (the effect of a full `rbd import`
materializing the destination image). -/
def upsertImage (pool : String) (img : RbdImage) (c : CephCluster) : CephCluster :=
  { c with pools := c.pools.map (fun p =>
      if p.1 == pool then (p.1, p.2 ++ [img]) else p) }

/-- `set_ceph_scrubbing` (src lines 190-195).  The source computes
`action = 'set' if enable else 'unset'` and runs
`ceph osd <action> nodeep-scrub` then `ceph osd <action> noscrub`.
External semantics of the ceph command: `set <flag>` makes the osd
flag present (true), `unset` clears it; a present noscrub or
nodeep-scrub flag PAUSES that kind of scrubbing on the cluster. -/
def set_ceph_scrubbing (enable : Bool) (inject : String) (s : ExecState) :
    ExecState :=
  let action := if enable then "set" else "unset"
  let s1 := pushTrace s (Cmd.osdFlag inject action "nodeep-scrub")
  let s2 := updateClusterAt s1 inject
    (fun c => { c with nodeepScrubFlag := action == "set" })
  let s3 := pushTrace s2 (Cmd.osdFlag inject action "noscrub")
  updateClusterAt s3 inject (fun c => { c with noscrubFlag := action == "set" })

/-- `wait_for_ceph_cluster_healthy` (src lines 198-202): polls
`ceph health detail` every 5 seconds until the report no longer starts
with HEALTH_ERR.  The world is static during a run, so the loop either
returns after its first query or never returns; the never-returning
case is modelled as a distinguished error outcome. -/
def wait_for_ceph_cluster_healthy (inject : String) (s : ExecState) :
    Except String Unit × ExecState :=
  let s1 := pushTrace s (Cmd.healthQuery inject)
  if (clusterOf s inject).healthErr then
    (Except.error "model: blocks forever waiting for cluster health", s1)
  else (Except.ok (), s1)

/-- `wait_for_ceph_scrubbing_completion` (src lines 205-210), same
static-world loop modelling for the "scrubbing" pattern search over
`ceph status`. -/
def wait_for_ceph_scrubbing_completion (inject : String) (s : ExecState) :
    Except String Unit × ExecState :=
  let s1 := pushTrace s (Cmd.statusQuery inject)
  if (clusterOf s inject).scrubActive then
    (Except.error "model: blocks forever waiting for scrubbing completion", s1)
  else (Except.ok (), s1)

/-- `cleanup` (src lines 213-217): the finalizer.  `no_scrubbing` is
`args.no_scrubbing`.  The `command_inject` parameter of the source
defaults to the empty string, and every call site (the two signal
handlers of lines 222-223 and the finally block of line 277) passes
no value for it. -/
def cleanup (no_scrubbing : Bool) (inject : String) (s : ExecState) : ExecState :=
  if no_scrubbing then set_ceph_scrubbing true inject s else s

/-- `create_ceph_rbd_snapshot` (src lines 163-174): builds the name
from the prefix plus the next random suffix from the supply, runs
`rbd snap create`, and appends the snapshot to the image.  The
non-zero-exit raise of line 172 is not modelled: snapshot creation is
assumed to succeed, since no claim injects a failure there. -/
def create_ceph_rbd_snapshot ( snapPre pool image inject : String)
    (s : ExecState) : String × ExecState :=
  let name := snapPre ++ s.rng.headD ""
  let s1 := { s with rng := s.rng.tail }
  let s2 := pushTrace s1 (Cmd.snapCreate inject pool image name)
  (name, updateClusterAt s2 inject (addSnap pool image name))

/-- `remove_ceph_rbd_snapshot` (src lines 182-183). -/
def remove_ceph_rbd_snapshot (pool image snapshot inject : String)
    (s : ExecState) : ExecState :=
  let s1 := pushTrace s (Cmd.snapRm inject pool image snapshot)
  updateClusterAt s1 inject (delSnap pool image snapshot)

/-- Python-like single-character split, used by the shell model. -/
def splitChar (sep : Char) : List Char → List (List Char)
  | [] => [[]]
  | c :: cs =>
    if c = sep then [] :: splitChar sep cs
    else
      match splitChar sep cs with
      | [] => [[c]]
      | g :: gs => (c :: g) :: gs

/-- Strips leading and trailing spaces. -/
def trimSpaces (l : List Char) : List Char :=
  ((l.dropWhile (fun c => c = ' ')).reverse.dropWhile (fun c => c = ' ')).reverse

/-- Exit status of a multi-stage pipeline: with `pipefail` it is the
rightmost non-zero stage status (0 when all stages succeed); without
it, the status of the last stage alone. -/
def pipelineExit (pf : Bool) (codes : List Nat) : Nat :=
  if pf then (codes.filter (fun c => c != 0)).getLastD 0 else codes.getLastD 0

/-- POSIX-shell model for the exact command strings the source hands
to `subprocess.Popen(..., shell=True)`: the commands separated by `;`
run in sequence in the outer shell; each command is a `|`-separated
pipeline of stages; a stage that is exactly the lone builtin
`set -o pipefail` enables pipefail for the LATER commands of the same
shell; every other stage is an external command whose exit status is
given by the environment `env` (applied to the trimmed stage text).
The overall status is the last command's status.  In the source's
strings the first `;`-command is `/bin/bash -c set -o pipefail` — an
external bash invocation, not the outer shell's builtin — so the
outer shell that runs the data pipeline never has pipefail enabled. -/
def shellRun (env : List Char → Nat) (cmd : String) : Nat :=
  ((splitChar ';' cmd.data).foldl (fun acc seg =>
      match (splitChar '|' seg).map trimSpaces with
      | [single] =>
        if single = "set -o pipefail".data then (true, 0)
        else (acc.1, env single)
      | stages => (acc.1, pipelineExit acc.1 (stages.map env))
    ) ((false, 0) : Bool × Nat)).2

/-- `execute_on_remote_command` (src line 221). -/
def execute_on_remote_command (remoteConnectionCommand : String) : String :=
  "ssh " ++ remoteConnectionCommand ++ " -T -o Compression=no -x "

/-- The full-copy pipeline string of src line 244, built by the same
concatenation as the source. -/
def full_transfer_command (remote srcPath : String) (image_size : Nat)
    (dstPath : String) : String :=
  "/bin/bash -c set -o pipefail; " ++ remote ++ "\"rbd export --no-progress "
    ++ srcPath ++ " -\" | pv --rate --bytes --progress --timer --eta --size "
    ++ toString image_size ++ " | rbd import --no-progress - " ++ dstPath

/-- The incremental pipeline string of src line 257, built by the same
concatenation as the source. -/
def incremental_transfer_command
    (remote whole_object_command snapshot_old snapshot_new srcPath dstPath :
      String) : String :=
  "/bin/bash -c set -o pipefail; " ++ remote
    ++ "\"rbd export-diff --no-progress " ++ whole_object_command
    ++ " --from-snap " ++ snapshot_old ++ " " ++ srcPath ++ "@" ++ snapshot_new
    ++ " -\" | pv --rate --bytes | rbd import-diff --no-progress - " ++ dstPath

/-- The argparse flags consumed by the run (src lines 15-24);
`snapPre` is `args.snapshot_prefix` alias SNAPSHOT_PREFIX. -/
structure Args where
  verbose : Bool
  debug : Bool
  snapPre : String
  whole_object : Bool
  wait_healthy : Bool
  no_scrubbing : Bool
  deriving DecidableEq, Repr

/-- The body of the top-level `try` (src lines 220-263): classification,
optional health/scrubbing gating, the transfer for the selected mode,
and checkpoint rolling.  `env` supplies the exit status of each
external pipeline stage.  The signal-handler registration of lines
222-223 has no synchronous effect on the body's data flow. -/
def try_block (env : List Char → Nat) (a : Args) (remoteConn : String)
    (source destination : VolRef) (s : ExecState) :
    Except String Unit × ExecState :=
  let remote := execute_on_remote_command remoteConn
  match get_backup_mode a.snapPre source destination remote s with
  | (Except.error e, s1) => (Except.error e, s1)
  | (Except.ok mode, s1) =>
    let whole_object_command := if a.whole_object then " --whole-object " else ""
    match (if a.wait_healthy || a.no_scrubbing then
        match wait_for_ceph_cluster_healthy "" s1 with
        | (Except.error e, s2) => (Except.error e, s2)
        | (Except.ok _, s2) => wait_for_ceph_cluster_healthy remote s2
      else (Except.ok (), s1)) with
    | (Except.error e, s2) => (Except.error e, s2)
    | (Except.ok _, s2) =>
      match (if a.no_scrubbing then
          let s3 := set_ceph_scrubbing false "" s2
          let s4 := set_ceph_scrubbing false remote s3
          match wait_for_ceph_scrubbing_completion "" s4 with
          | (Except.error e, s5) => (Except.error e, s5)
          | (Except.ok _, s5) => wait_for_ceph_scrubbing_completion remote s5
        else (Except.ok (), s2)) with
      | (Except.error e, s3) => (Except.error e, s3)
      | (Except.ok _, s3) =>
        match (if mode.mode == BACKUPMODE_INITIAL then
            let srcPath := ceph_rbd_object_to_path source
            let dstPath := ceph_rbd_object_to_path destination
            let s4 := pushTrace s3 (Cmd.infoQuery remote srcPath)
            let image_size :=
              ((lookupImage (clusterOf s3 remote) source.pool
                  source.image).map RbdImage.size).getD 0
            let cmdStr := full_transfer_command remote srcPath image_size dstPath
            let s5 := pushTrace s4 (Cmd.pipeline cmdStr)
            let code := shellRun env cmdStr
            if code != 0 then
              (Except.error ("command failed with code: " ++ toString code), s5)
            else
              let s6 := updateClusterAt s5 "" (upsertImage destination.pool
                { name := destination.image, snaps := [], size := image_size })
              let (_, s7) := create_ceph_rbd_snapshot a.snapPre source.pool
                source.image remote s6
              let (_, s8) := create_ceph_rbd_snapshot a.snapPre destination.pool
                destination.image "" s7
              (Except.ok (), s8)
          else (Except.ok (), s3)) with
        | (Except.error e, s4) => (Except.error e, s4)
        | (Except.ok _, s4) =>
          if mode.mode == BACKUPMODE_INCREMENTAL then
            let snapshot_old := mode.base_snapshot
            let (snapshot_new, s5) := create_ceph_rbd_snapshot a.snapPre
              source.pool source.image remote s4
            let srcPath := ceph_rbd_object_to_path source
            let dstPath := ceph_rbd_object_to_path destination
            let cmdStr := incremental_transfer_command remote
              whole_object_command snapshot_old snapshot_new srcPath dstPath
            let s6 := pushTrace s5 (Cmd.pipeline cmdStr)
            let code := shellRun env cmdStr
            if code != 0 then
              (Except.error ("command failed with code: " ++ toString code), s6)
            else
              let (_, s7) := create_ceph_rbd_snapshot a.snapPre destination.pool
                destination.image "" s6
              (Except.ok (),
               remove_ceph_rbd_snapshot source.pool source.image snapshot_old
                 remote s7)
          else (Except.ok (), s4)

/-- Output stream selector. -/
inductive OutStream where
  | stdout
  | stderr
  deriving DecidableEq, Repr

/-- `print_std_err` (src lines 47-48).  Bug preserved from the source:
`print(str, file=sys.stderr)` prints the builtin type object `str`,
not the `message` parameter, so the emitted text is the repr of the
str type regardless of the message. -/
def print_std_err (_message : String) : List (OutStream × String) :=
  [(OutStream.stderr, "<class \x27str\x27>")]

/-- LOGLEVEL_DEBUG (src line 26). -/
def LOGLEVEL_DEBUG : Nat := 0

/-- LOGLEVEL_INFO (src line 27). -/
def LOGLEVEL_INFO : Nat := 1

/-- LOGLEVEL_WARN (src line 28). -/
def LOGLEVEL_WARN : Nat := 2

/-- `log_message` (src lines 51-58): what one call prints and on which
stream.  Only DEBUG-level messages reach `print_std_err`; everything
else that passes the verbosity guards goes to stdout via `print`. -/
def log_message (verbose debug : Bool) (message : String) (level : Nat) :
    List (OutStream × String) :=
  if decide (level ≤ LOGLEVEL_INFO) && !(verbose || debug) then []
  else if (level == LOGLEVEL_DEBUG) && !debug then []
  else if level == LOGLEVEL_DEBUG then print_std_err message
  else [(OutStream.stdout, message)]

/-- BackgroundColors.FAIL (src line 41). -/
def FAIL_COLOR : String := "\x1b[91m"

/-- BackgroundColors.WARNING (src line 40). -/
def WARNING_COLOR : String := "\x1b[93m"

/-- BackgroundColors.ENDC (src line 42). -/
def ENDC_COLOR : String := "\x1b[0m"

/-- The whole guarded run (src lines 220-277): the try body, the
`except RuntimeError` handler that logs the failure at WARN level
(line 270), and the `finally` block that invokes `cleanup()` with its
default empty command_inject (line 277).  The first component is the
process exit status: the except handlers catch the exception and
neither re-raise nor call sys.exit, so the interpreter exits 0 on the
caught-error path exactly as on the success path.  The log component
collects only the top-level error reporting. -/
def run_tool (env : List Char → Nat) (a : Args) (remoteConn : String)
    (source destination : VolRef) (s0 : ExecState) :
    Nat × List (OutStream × String) × ExecState :=
  match try_block env a remoteConn source destination s0 with
  | (Except.ok _, s) => (0, [], cleanup a.no_scrubbing "" s)
  | (Except.error e, s) =>
      (0,
       log_message a.verbose a.debug
         (FAIL_COLOR ++ "runtime exception " ++ e ++ ENDC_COLOR) LOGLEVEL_WARN,
       cleanup a.no_scrubbing "" s)

/-- Stage-exit environment of the C4 failure injection: the remote
export stage (the ssh-prefixed stage) exits 1; every other stage —
including the external `/bin/bash -c set -o pipefail` invocation, pv,
and the import stage — exits 0. -/
def envExportFails : List Char → Nat :=
  fun stage => if "ssh".data.isPrefixOf stage then 1 else 0

/-- Environment in which every external command succeeds. -/
def envAllOk : List Char → Nat := fun _ => 0

/-- The argparse defaults of src lines 15-22 with the documented
snapshot prefix. -/
def defaultArgs : Args :=
  { verbose := false, debug := false, snapPre := "backup_snapshot_",
    whole_object := true, wait_healthy := true, no_scrubbing := false }

/-- True exactly on the `ceph osd set/unset` trace entries. -/
def isOsdFlag : Cmd → Bool
  | Cmd.osdFlag _ _ _ => true
  | _ => false

/-- **C4** (the code evaluated at the failing input): start from one
owned source checkpoint and an existing destination, and let the
incremental export stage exit 1 while pv and the import stage exit 0.
The stage statuses of the built command are [[0], [1, 0, 0]] (the
lone first command is the external bash that swallows the
`set -o pipefail`), yet the shell reports overall status 0, so
`exec_raw` raises no TransferError: the run completes, the
destination-checkpoint creation IS invoked, the destination history
gains a checkpoint, and the base checkpoint is removed from the
source. -/
theorem c4_export_failure_undetected :
    ((splitChar ';' (incremental_transfer_command
        (execute_on_remote_command "user@host") " --whole-object "
        "backup_snapshot_aaaa" "backup_snapshot_1111" "rbd/vm"
        "rbd_backup/vm").data).map
      (fun seg => ((splitChar '|' seg).map trimSpaces).map envExportFails)) =
      [[0], [1, 0, 0]] ∧
    shellRun envExportFails (incremental_transfer_command
        (execute_on_remote_command "user@host") " --whole-object "
        "backup_snapshot_aaaa" "backup_snapshot_1111" "rbd/vm"
        "rbd_backup/vm") = 0 ∧
    (try_block envExportFails defaultArgs "user@host" ⟨"rbd", "vm"⟩
        ⟨"rbd_backup", "vm"⟩ testState).1 = Except.ok () ∧
    (try_block envExportFails defaultArgs "user@host" ⟨"rbd", "vm"⟩
        ⟨"rbd_backup", "vm"⟩ testState).2.trace.contains
      (Cmd.snapCreate "" "rbd_backup" "vm" "backup_snapshot_2222") = true ∧
    lookupImage (try_block envExportFails defaultArgs "user@host" ⟨"rbd", "vm"⟩
        ⟨"rbd_backup", "vm"⟩ testState).2.localC "rbd_backup" "vm" =
      some { name := "vm", snaps := ["backup_snapshot_2222"], size := 42 } ∧
    lookupImage (try_block envExportFails defaultArgs "user@host" ⟨"rbd", "vm"⟩
        ⟨"rbd_backup", "vm"⟩ testState).2.remoteC "rbd" "vm" =
      some { name := "vm", snaps := ["backup_snapshot_1111"], size := 42 } := by
  decide

/-- `args` for a run invoked with `--no-scrubbing`. -/
def noScrubArgs : Args :=
  { verbose := false, debug := false, snapPre := "backup_snapshot_",
    whole_object := true, wait_healthy := true, no_scrubbing := true }

/-- **C3** (the code evaluated at the failing input): a successful
`--no-scrubbing` run on a fresh volume pair.  At process exit the
finalizer has issued only LOCAL `ceph osd set` commands: the osd
trace shows the run's `unset` pair on each cluster (src lines
234-235, which — polarity inverted against their own "disable" log
message — actually resume scrubbing) followed by cleanup's local
`set` pair and nothing for the remote cluster; the local cluster ends
with both scrub-pause flags SET (scrubbing disabled after exit, not
re-enabled) while the remote cluster's flags are untouched by
cleanup. -/
theorem c3_cleanup_local_only_and_inverted :
    (run_tool envAllOk noScrubArgs "user@host" ⟨"rbd", "vm"⟩
        ⟨"rbd_backup", "vm"⟩ stateZeroSnapNoDest).1 = 0 ∧
    (run_tool envAllOk noScrubArgs "user@host" ⟨"rbd", "vm"⟩
        ⟨"rbd_backup", "vm"⟩ stateZeroSnapNoDest).2.2.trace.filter isOsdFlag =
      [Cmd.osdFlag "" "unset" "nodeep-scrub",
       Cmd.osdFlag "" "unset" "noscrub",
       Cmd.osdFlag "ssh user@host -T -o Compression=no -x " "unset" "nodeep-scrub",
       Cmd.osdFlag "ssh user@host -T -o Compression=no -x " "unset" "noscrub",
       Cmd.osdFlag "" "set" "nodeep-scrub",
       Cmd.osdFlag "" "set" "noscrub"] ∧
    (run_tool envAllOk noScrubArgs "user@host" ⟨"rbd", "vm"⟩
        ⟨"rbd_backup", "vm"⟩ stateZeroSnapNoDest).2.2.localC.noscrubFlag = true ∧
    (run_tool envAllOk noScrubArgs "user@host" ⟨"rbd", "vm"⟩
        ⟨"rbd_backup", "vm"⟩ stateZeroSnapNoDest).2.2.localC.nodeepScrubFlag
      = true ∧
    (run_tool envAllOk noScrubArgs "user@host" ⟨"rbd", "vm"⟩
        ⟨"rbd_backup", "vm"⟩ stateZeroSnapNoDest).2.2.remoteC.noscrubFlag
      = false ∧
    (run_tool envAllOk noScrubArgs "user@host" ⟨"rbd", "vm"⟩
        ⟨"rbd_backup", "vm"⟩ stateZeroSnapNoDest).2.2.remoteC.nodeepScrubFlag
      = false := by
  decide

/-- A remote source cluster that does not contain the source image. -/
def testRemoteEmptyPool : CephCluster :=
  { pools := [("rbd", [])], noscrubFlag := false, nodeepScrubFlag := false,
    healthErr := false, scrubActive := false }

/-- State in which the source image is missing at the remote site. -/
def stateNoSource : ExecState :=
  { remoteC := testRemoteEmptyPool, localC := testLocal, trace := [],
    rng := ["1111", "2222"] }

/-- **C2 counterexample**: a run whose classification raises a
precondition error (missing source volume) still terminates with
process exit status 0, and the error report is printed to STDOUT, not
to the standard error stream. -/
theorem c2_error_exits_zero_on_stdout :
    (run_tool envAllOk defaultArgs "user@host" ⟨"rbd", "vm"⟩
        ⟨"rbd_backup", "vm"⟩ stateNoSource).1 = 0 ∧
    (run_tool envAllOk defaultArgs "user@host" ⟨"rbd", "vm"⟩
        ⟨"rbd_backup", "vm"⟩ stateNoSource).2.1 =
      [(OutStream.stdout,
        FAIL_COLOR ++ "runtime exception invalid arguments, source image does not exist rbd/vm"
          ++ ENDC_COLOR)] := by
  decide

/-- **C2** (amended): the process exit status is 0 on success AND after
any caught RuntimeError of the run, because the top-level except
handlers only log and never re-raise or call sys.exit; every message
the top-level handler emits goes to standard output (only DEBUG-level
messages would target stderr, and the WARN-level error report is not
DEBUG). -/
theorem c2_exit_zero_and_stdout_logging (env : List Char → Nat) (a : Args)
    (remoteConn : String) (source destination : VolRef) (s0 : ExecState) :
    (run_tool env a remoteConn source destination s0).1 = 0 ∧
    (run_tool env a remoteConn source destination s0).2.1.all
      (fun p => p.1 == OutStream.stdout) = true := by
  rcases hr : try_block env a remoteConn source destination s0 with ⟨e | v, s⟩
  · simp [run_tool, hr, log_message, LOGLEVEL_WARN, LOGLEVEL_INFO,
      LOGLEVEL_DEBUG]
  · simp [run_tool, hr]

/-- **C7**: the cleanup finalizer is idempotent on cluster state: a
second invocation (with the same `args.no_scrubbing` and the same
default command_inject as the source's call sites) leaves both
clusters exactly as the first invocation left them — no double-toggle,
no third state. -/
theorem c7_cleanup_idempotent (ns : Bool) (inject : String) (s : ExecState) :
    (cleanup ns inject (cleanup ns inject s)).localC =
      (cleanup ns inject s).localC ∧
    (cleanup ns inject (cleanup ns inject s)).remoteC =
      (cleanup ns inject s).remoteC := by
  cases ns
  · simp [cleanup]
  · by_cases h : inject = ""
    · subst h
      simp [cleanup, set_ceph_scrubbing, updateClusterAt, pushTrace]
    · simp [cleanup, set_ceph_scrubbing, updateClusterAt, pushTrace, h]

/-- argparse semantics of a store_true option (src line 20): the
parsed value is True when the flag is present on the command line,
otherwise the declared default. -/
def store_true_parse (present defaultVal : Bool) : Bool :=
  if present then true else defaultVal

/-- `args.whole_object` (src line 20): action store_true with default
True, so the parsed value for any command line. -/
def whole_object_arg (present : Bool) : Bool :=
  store_true_parse present true

/-- String concatenation is associative. -/
theorem str_append_assoc (a b c : String) :
    (a ++ b) ++ c = a ++ (b ++ c) := by
  apply String.ext
  simp [String.data_append, List.append_assoc]

/-- **C9**: whether or not `--whole-object` is passed on the command
line, the parsed flag is True (store_true with default True), so the
source computes `whole_object_command = ' --whole-object '` (src
lines 227-228) and the incremental export-diff pipeline string always
contains the `--whole-object` option; the finer intra-object diff
granularity is unreachable from the command-line surface. -/
theorem c9_whole_object_always_on (present : Bool)
    (remote snapOld snapNew srcPath dstPath : String) :
    whole_object_arg present = true ∧
    (∃ a b, incremental_transfer_command remote
        (if whole_object_arg present then " --whole-object " else "")
        snapOld snapNew srcPath dstPath = a ++ " --whole-object " ++ b) := by
  have hw : whole_object_arg present = true := by
    cases present <;> rfl
  refine ⟨hw, ?_⟩
  rw [hw]
  refine ⟨"/bin/bash -c set -o pipefail; " ++ remote
      ++ "\"rbd export-diff --no-progress ",
    " --from-snap " ++ snapOld ++ " " ++ srcPath ++ "@" ++ snapNew
      ++ " -\" | pv --rate --bytes | rbd import-diff --no-progress - "
      ++ dstPath, ?_⟩
  apply String.ext
  simp [incremental_transfer_command, String.data_append, List.append_assoc]

/-- `ceph_rbd_path_to_object` (src lines 86-88): splits the path on
'/' and indexes fields 0 and 1; `splitChar` is Python's split for a
one-character separator, and a missing index is Python's IndexError,
modelled as `none`.  Index 0 always exists because split never
returns an empty list. -/
def ceph_rbd_path_to_object (image_path : List Char) :
    Option (List Char × List Char) :=
  let path_arr := splitChar '/' image_path
  match path_arr[0]?, path_arr[1]? with
  | some p, some i => some (p, i)
  | _, _ => none

/-- The module-level argument processing of src lines 98-104, which
runs before the top-level try block: `remoteConnectionCommand` is the
field before the first ':' of --source, the source volume path is the
field after it (IndexError when --source has no ':'), and both volume
paths are split at '/' (IndexError when a path has no '/'). -/
def startup_parse (sourceArg destinationArg : List Char) :
    Option (List Char × (List Char × List Char) × (List Char × List Char)) :=
  let srcFields := splitChar ':' sourceArg
  match srcFields[1]? with
  | none => none
  | some second =>
    match ceph_rbd_path_to_object second with
    | none => none
    | some source =>
      match ceph_rbd_path_to_object destinationArg with
      | none => none
      | some destination => some (srcFields.headD [], source, destination)

/-- The whole program: the module-level parse (which runs before the
try block of line 220), then the guarded run.  A parse failure is an
UNHANDLED IndexError: it is raised outside the try/except and outside
the RuntimeError taxonomy, so no handler and no finalizer run, the
interpreter exits with status 1, and no cluster command has been
issued (empty executed-command trace). -/
def program_run (env : List Char → Nat) (a : Args)
    (sourceArg destinationArg : List Char) (s0 : ExecState) :
    Nat × List Cmd :=
  match startup_parse sourceArg destinationArg with
  | none => (1, [])
  | some cfg =>
    let r := run_tool env a (String.mk cfg.1)
      ⟨String.mk cfg.2.1.1, String.mk cfg.2.1.2⟩
      ⟨String.mk cfg.2.2.1, String.mk cfg.2.2.2⟩ s0
    (r.1, r.2.2.trace)

/-- Splitting a list that does not contain the separator yields the
whole list as the single field (Python `s.split(c) == [s]` when `c`
does not occur in `s`). -/
theorem splitChar_eq_single (sep : Char) :
    ∀ l : List Char, (∀ c ∈ l, c ≠ sep) → splitChar sep l = [l] := by
  intro l
  induction l with
  | nil => intro _; rfl
  | cons c cs ih =>
    intro h
    have hc : c ≠ sep := h c (List.mem_cons_self c cs)
    simp only [splitChar, if_neg hc]
    rw [ih (fun x hx => h x (List.mem_cons_of_mem c hx))]

/-- **C10**: if --source contains no ':' separator, or the source
volume path (the field after the first ':') contains no '/', or
--destination contains no '/', the module-level parse hits an
IndexError before the try block: the process exits non-zero through
an unhandled exception outside the documented error taxonomy, and no
cluster command is ever issued. -/
theorem c10_malformed_args_index_error (env : List Char → Nat) (a : Args)
    (sourceArg destinationArg : List Char) (s0 : ExecState)
    (h : (':' ∉ sourceArg) ∨
         ('/' ∉ (splitChar ':' sourceArg).getD 1 []) ∨
         ('/' ∉ destinationArg)) :
    startup_parse sourceArg destinationArg = none ∧
    program_run env a sourceArg destinationArg s0 = (1, []) := by
  have hnone : startup_parse sourceArg destinationArg = none := by
    rcases h with h | h | h
    · have hs : splitChar ':' sourceArg = [sourceArg] :=
        splitChar_eq_single ':' sourceArg (fun c hc hEq => h (hEq ▸ hc))
      simp [startup_parse, hs]
    · cases hs : (splitChar ':' sourceArg)[1]? with
      | none => simp [startup_parse, hs]
      | some second =>
        have hsec : (splitChar ':' sourceArg).getD 1 [] = second := by
          simp [List.getD_eq_getElem?_getD, hs]
        rw [hsec] at h
        have h2 : splitChar '/' second = [second] :=
          splitChar_eq_single '/' second (fun c hc hEq => h (hEq ▸ hc))
        simp [startup_parse, hs, ceph_rbd_path_to_object, h2]
    · have h2 : splitChar '/' destinationArg = [destinationArg] :=
        splitChar_eq_single '/' destinationArg (fun c hc hEq => h (hEq ▸ hc))
      cases hs : (splitChar ':' sourceArg)[1]? with
      | none => simp [startup_parse, hs]
      | some second =>
        cases hsrc : ceph_rbd_path_to_object second with
        | none => simp [startup_parse, hs, hsrc]
        | some srcPair =>
          simp [startup_parse, hs, hsrc, ceph_rbd_path_to_object, h2]
          split <;> rfl
  exact ⟨hnone, by simp [program_run, hnone]⟩

/-- Witness for C10: a --source without ':' aborts the parse and the
program issues no command. -/
theorem c10_malformed_args_index_error_witness :
    startup_parse "abc".data "rbd_backup/vm".data = none ∧
    program_run envAllOk defaultArgs "abc".data "rbd_backup/vm".data
      testState = (1, []) :=
  c10_malformed_args_index_error envAllOk defaultArgs "abc".data
    "rbd_backup/vm".data testState (Or.inl (by decide))

end RbdBackup
